import Mathlib

/-!
Shallow embedding of `src/dispatching/update_listeners/webhooks.rs`:
the `Options` value object, its builder methods, the `setup_webhook`
registration routine, and the `tuple_first_mut` helper.

External types are modelled abstractly: the bind address (`SocketAddr`) and
the certificate payload (`InputFile`) are type parameters; the callback
`url::Url` is modelled as a host together with a numeric port, since the
allowed-port question concerns only the port.  The remote bot client
(`Requester`) is modelled as a function from the registration payload to an
`Except` result; `setup_webhook` records the list of registration calls it
issues so that exactly-once claims can be stated.
-/

namespace Webhooks

/-- Model of `url::Url`: only the port is ever inspected by the claims, so a
host string together with a numeric port suffices. -/
structure Url where
  host : String
  port : Nat

/-- The ports the remote service accepts for a callback url, taken from the
doc comment on `Options.url` (443, 80, 88 and 8443).  The code itself never
consults this list. -/
def allowedPorts : List Nat := [443, 80, 88, 8443]

/-- The `Options` struct of `webhooks.rs`: local bind address, public callback
url, optional TLS certificate payload, optional drop-pending-updates flag.
`Addr` stands for `SocketAddr` and `Cert` for `InputFile`, both external
types kept abstract. -/
structure Options (Addr Cert : Type) where
  address : Addr
  url : Url
  certificate : Option Cert
  drop_pending_updates : Option Bool

/-- `Options::new(address, url)`: constructs options with both optional
fields unset. -/
def Options.new {Addr Cert : Type} (address : Addr) (url : Url) :
    Options Addr Cert :=
  { address := address, url := url, certificate := none,
    drop_pending_updates := none }

/-- The builder method `Options::certificate(self, v)` (named
`setCertificate` here because Lean reserves `Options.certificate` for the
field projection): returns the options with the certificate field set. -/
def Options.setCertificate {Addr Cert : Type} (o : Options Addr Cert)
    (v : Cert) : Options Addr Cert :=
  { o with certificate := some v }

/-- The builder method `Options::drop_pending_updates(self)` (named
`dropPendingUpdates` here because Lean reserves the snake-case name for the
field projection): returns the options with the flag set to `some true`. -/
def Options.dropPendingUpdates {Addr Cert : Type} (o : Options Addr Cert) :
    Options Addr Cert :=
  { o with drop_pending_updates := some true }

/-- The payload of the `SetWebhook` registration call, restricted to the
fields `setup_webhook` touches: url, optional certificate, optional
drop-pending-updates flag. -/
structure SetWebhookPayload (Cert : Type) where
  url : Url
  certificate : Option Cert
  drop_pending_updates : Option Bool

/-- `bot.set_webhook(url)`: a fresh registration payload carrying the url,
with every optional field absent. -/
def set_webhook {Cert : Type} (url : Url) : SetWebhookPayload Cert :=
  { url := url, certificate := none, drop_pending_updates := none }

/-- The outcome of one `setup_webhook` invocation: the returned
`Result<(), R::Err>`, the options as left after the `&mut` borrow ends, and
the list of registration calls issued to the remote client. -/
structure SetupOutcome (Addr Cert ε : Type) where
  result : Except ε Unit
  options : Options Addr Cert
  calls : List (SetWebhookPayload Cert)

/-- `setup_webhook(bot, options)`: builds one registration payload via
`bot.set_webhook(url.clone())`, moves the certificate out of the options
with `certificate.take()`, copies the drop-pending-updates flag, sends the
request once, and propagates any error unchanged (the `?` operator).  The
remote client is the function `send`; the issued calls are recorded. -/
def setup_webhook {Addr Cert ε : Type}
    (send : SetWebhookPayload Cert → Except ε Unit)
    (options : Options Addr Cert) : SetupOutcome Addr Cert ε :=
  let req0 : SetWebhookPayload Cert := set_webhook options.url
  let req : SetWebhookPayload Cert :=
    { req0 with
        certificate := options.certificate,
        drop_pending_updates := options.drop_pending_updates }
  { result := (send req).map fun _ => ()
    options := { options with certificate := none }
    calls := [req] }

/-- A Rust `&mut A` projected out of a larger value `S`, modelled as a
getter-setter pair (a lens). -/
structure MutRef (S A : Type) where
  get : S → A
  set : S → A → S

/-- `tuple_first_mut(tuple: &mut (A, B)) -> &mut A`: the mutable reference
`&mut tuple.0`, i.e. the lens onto the first component of a pair. -/
def tuple_first_mut (A B : Type) : MutRef (A × B) A :=
  { get := fun t => t.1, set := fun t a => (a, t.2) }

/-- Concrete options used by the witnesses: certificate present. -/
def wOpts : Options Nat Nat :=
  { address := 0, url := { host := "example.com", port := 443 },
    certificate := some 5, drop_pending_updates := none }

/-- Concrete options used by the witnesses: disallowed port 8080. -/
def wOptsBadPort : Options Nat Nat :=
  { address := 0, url := { host := "example.com", port := 8080 },
    certificate := none, drop_pending_updates := some true }

/-- A remote client that accepts every registration call. -/
def wSendOk : SetWebhookPayload Nat → Except String Unit :=
  fun _ => Except.ok ()

/-- A remote client that rejects every registration call. -/
def wSendFail : SetWebhookPayload Nat → Except String Unit :=
  fun _ => Except.error "Rejected"

/-- C1: one invocation of `setup_webhook` issues exactly one registration
call, whose payload carries exactly the fields of the options: its url is
`options.url`, its certificate field is `options.certificate` (hence `none`
when none was supplied), and its drop-pending-updates field is
`options.drop_pending_updates` (hence absent when unset). -/
theorem setup_webhook_single_call_exact_fields {Addr Cert ε : Type}
    (send : SetWebhookPayload Cert → Except ε Unit) (o : Options Addr Cert) :
    (setup_webhook send o).calls
      = [{ url := o.url, certificate := o.certificate,
           drop_pending_updates := o.drop_pending_updates }] := rfl

/-- C2: `setup_webhook` consumes the certificate exactly once: after a
successful invocation on options whose certificate was `some c`, the
options' certificate field is `none`, and every registration call of a
second invocation on those same options carries no certificate. -/
theorem setup_webhook_consumes_certificate {Addr Cert ε : Type}
    (send send2 : SetWebhookPayload Cert → Except ε Unit)
    (o : Options Addr Cert) (c : Cert)
    (hc : o.certificate = some c)
    (hok : (setup_webhook send o).result = Except.ok ()) :
    (setup_webhook send o).options.certificate = none
    ∧ ∀ p ∈ (setup_webhook send2 (setup_webhook send o).options).calls,
        p.certificate = none := by
  refine ⟨rfl, ?_⟩
  intro p hp
  simp only [setup_webhook, set_webhook, List.mem_singleton] at hp
  subst hp
  rfl

/-- Witness for C2 at concrete inputs. -/
theorem setup_webhook_consumes_certificate_witness :
    (setup_webhook wSendOk wOpts).options.certificate = none
    ∧ ∀ p ∈ (setup_webhook wSendOk (setup_webhook wSendOk wOpts).options).calls,
        p.certificate = none :=
  setup_webhook_consumes_certificate wSendOk wSendOk wOpts 5 rfl rfl

/-- C3: no local port validation: even when the url's port lies outside the
allowed set, `setup_webhook` still issues its single registration call, and
its result is exactly what the remote call returns. -/
theorem setup_webhook_no_port_validation {Addr Cert ε : Type}
    (send : SetWebhookPayload Cert → Except ε Unit) (o : Options Addr Cert)
    (hport : o.url.port ∉ allowedPorts) :
    (setup_webhook send o).calls
      = [{ url := o.url, certificate := o.certificate,
           drop_pending_updates := o.drop_pending_updates }]
    ∧ (setup_webhook send o).result
      = send { url := o.url, certificate := o.certificate,
               drop_pending_updates := o.drop_pending_updates } := by
  refine ⟨rfl, ?_⟩
  cases h : send ⟨o.url, o.certificate, o.drop_pending_updates⟩ with
  | ok u =>
    cases u
    simp only [setup_webhook, set_webhook, h, Except.map]
  | error err =>
    simp only [setup_webhook, set_webhook, h, Except.map]

/-- Witness for C3 at a concrete disallowed port (8080). -/
theorem setup_webhook_no_port_validation_witness :
    wOptsBadPort.url.port ∉ allowedPorts
    ∧ ((setup_webhook wSendFail wOptsBadPort).calls
        = [{ url := wOptsBadPort.url, certificate := wOptsBadPort.certificate,
             drop_pending_updates := wOptsBadPort.drop_pending_updates }]
      ∧ (setup_webhook wSendFail wOptsBadPort).result
        = wSendFail { url := wOptsBadPort.url,
                      certificate := wOptsBadPort.certificate,
                      drop_pending_updates := wOptsBadPort.drop_pending_updates }) :=
  ⟨by decide, setup_webhook_no_port_validation wSendFail wOptsBadPort (by decide)⟩

/-- C4: the builder steps commute: applying `certificate(c)` then
`drop_pending_updates()` equals applying them in the other order, and either
order yields an options value with `certificate = some c`,
`drop_pending_updates = some true`, and the address and url of `o`. -/
theorem builder_steps_commute {Addr Cert : Type}
    (o : Options Addr Cert) (c : Cert) :
    (o.setCertificate c).dropPendingUpdates
      = (o.dropPendingUpdates).setCertificate c
    ∧ (o.setCertificate c).dropPendingUpdates
      = { address := o.address, url := o.url, certificate := some c,
          drop_pending_updates := some true } :=
  ⟨rfl, rfl⟩

/-- C5: `Options::new(address, url)` is total (no validation) and returns
options whose address and url are the given arguments and whose certificate
and drop-pending-updates fields are both `none`. -/
theorem Options_new_unset_fields {Addr Cert : Type} (a : Addr) (u : Url) :
    (Options.new a u : Options Addr Cert)
      = { address := a, url := u, certificate := none,
          drop_pending_updates := none } := rfl

/-- C6: `setup_webhook` performs no retry and does not transform errors: it
issues exactly one registration call even on failure, and its result is
exactly the result of that single call (so it returns `Except.error e` if
and only if the call does, with `e` unmodified). -/
theorem setup_webhook_no_retry_error_passthrough {Addr Cert ε : Type}
    (send : SetWebhookPayload Cert → Except ε Unit) (o : Options Addr Cert) :
    (setup_webhook send o).calls.length = 1
    ∧ (setup_webhook send o).result
      = send { url := o.url, certificate := o.certificate,
               drop_pending_updates := o.drop_pending_updates } := by
  refine ⟨rfl, ?_⟩
  cases h : send ⟨o.url, o.certificate, o.drop_pending_updates⟩ with
  | ok u =>
    cases u
    simp only [setup_webhook, set_webhook, h, Except.map]
  | error err =>
    simp only [setup_webhook, set_webhook, h, Except.map]

/-- C7: the certificate is consumed even when the registration call fails:
if `setup_webhook` returns an error, the options' certificate field is
nevertheless `none` afterwards (the take happens before the send is
awaited). -/
theorem setup_webhook_consumes_even_on_error {Addr Cert ε : Type}
    (send : SetWebhookPayload Cert → Except ε Unit) (o : Options Addr Cert)
    (err : ε)
    (hfail : (setup_webhook send o).result = Except.error err) :
    (setup_webhook send o).options.certificate = none := rfl

/-- Witness for C7 at a concrete failing remote call. -/
theorem setup_webhook_consumes_even_on_error_witness :
    (setup_webhook wSendFail wOpts).result = Except.error "Rejected"
    ∧ (setup_webhook wSendFail wOpts).options.certificate = none :=
  ⟨rfl, setup_webhook_consumes_even_on_error wSendFail wOpts "Rejected" rfl⟩

/-- C8: `setup_webhook` modifies no field of the options other than the
certificate: afterwards the address, url and drop-pending-updates fields
equal their values before the call, whatever the remote call returned. -/
theorem setup_webhook_frame {Addr Cert ε : Type}
    (send : SetWebhookPayload Cert → Except ε Unit) (o : Options Addr Cert) :
    (setup_webhook send o).options.address = o.address
    ∧ (setup_webhook send o).options.url = o.url
    ∧ (setup_webhook send o).options.drop_pending_updates
      = o.drop_pending_updates :=
  ⟨rfl, rfl, rfl⟩

/-- C9: `Options::drop_pending_updates` can only enable the flag: it always
sets it to `some true` (never `some false`), it is idempotent, and the only
other builder step, `Options::certificate`, leaves the flag unchanged (and
`Options::new` starts it at `none`), so no builder step sets it to false. -/
theorem dropPendingUpdates_only_enables {Addr Cert : Type}
    (o : Options Addr Cert) :
    (o.dropPendingUpdates).drop_pending_updates = some true
    ∧ o.dropPendingUpdates.dropPendingUpdates = o.dropPendingUpdates
    ∧ (∀ c : Cert, (o.setCertificate c).drop_pending_updates
        = o.drop_pending_updates)
    ∧ ∀ a : Addr, ∀ u : Url,
        (Options.new a u : Options Addr Cert).drop_pending_updates = none :=
  ⟨rfl, rfl, fun _ => rfl, fun _ _ => rfl⟩

/-- C10: `tuple_first_mut` is the mutable reference to the first component:
reading through it on `(a, b)` yields `a`, and writing `x` through it yields
`(x, b)`, changing only the first component and leaving the second
unchanged. -/
theorem tuple_first_mut_spec {A B : Type} (a x : A) (b : B) :
    (tuple_first_mut A B).get (a, b) = a
    ∧ (tuple_first_mut A B).set (a, b) x = (x, b) :=
  ⟨rfl, rfl⟩

end Webhooks
